import Mathlib

/-!
Shallow embedding of the MELODY4U backend (src/MELODY4U/backend/r2.js and
src/MELODY4U/backend/server.js).

Conventions of the embedding:
- JavaScript values that may be undefined are Option String; string
  interpolation of undefined yields the text "undefined" (jsStr).
- Code that can throw returns Option; none models a thrown exception.
- The two Express handlers are embedded as pure functions from an explicit
  environment of collaborator outcomes (store, pipeline, filesystem, uuid
  generator) to an HTTP response paired with the ordered list of external
  effects the handler performed. A thrown step still emits its effect
  (the call was made) and aborts the rest, landing in the catch block.
-/

namespace Melody4u

/-- JSON-like values appearing in response bodies. -/
inductive JVal
  | str : String → JVal
  | bool : Bool → JVal
deriving DecidableEq

/-- A response body is an ordered list of JSON fields. -/
abbrev JBody := List (String × JVal)

/-- Field lookup in a response body, first match wins. -/
def lookupJ (o : JBody) (k : String) : Option JVal :=
  (o.find? (fun p => p.1 == k)).map (fun p => p.2)

/-- An HTTP response: status code and JSON body. -/
structure HttpResponse where
  status : Nat
  body : JBody
deriving DecidableEq

/-- External effects performed by the handlers, in program order:
signed-URL issuance (GetObjectCommand scoped to one key, with TTL),
pipeline invocation (fluent-ffmpeg with two inputs, a complex filter,
output options and a local output path), local file read, store write
(PutObjectCommand with key and content type), and local file removal. -/
inductive Eff
  | signUrl (key : String) (ttl : Nat)
  | mix (voiceUrl musicUrl filterGraph : String) (outputOptions : List String) (outPath : String)
  | readFile (path : String)
  | putObject (key : String) (contentType : Option String)
  | unlink (path : String)
deriving DecidableEq

def isSignEff : Eff → Bool
  | Eff.signUrl _ _ => true
  | _ => false

def isMixEff : Eff → Bool
  | Eff.mix _ _ _ _ _ => true
  | _ => false

def isPutEff : Eff → Bool
  | Eff.putObject _ _ => true
  | _ => false

def isUnlinkEff : Eff → Bool
  | Eff.unlink _ => true
  | _ => false

/-- JavaScript string interpolation of a possibly undefined value:
undefined prints as the text "undefined". -/
def jsStr : Option String → String
  | none => "undefined"
  | some s => s

/-- JavaScript truthiness of a possibly undefined string: undefined and
the empty string are falsy, every other string is truthy. -/
def jsTruthy : Option String → Bool
  | none => false
  | some s => !(s == "")

/-- JavaScript a || d for a possibly undefined string a: the default d is
used when a is undefined or empty (falsy). -/
def jsOrDefault (a : Option String) (d : String) : String :=
  match a with
  | none => d
  | some s => if s == "" then d else s

/-- String suffix test over the character lists, so that proofs can be
evaluated by the kernel. -/
def strEndsWith (s suffix : String) : Bool :=
  suffix.toList.isSuffixOf s.toList

/-- Model of String.prototype.replace with the regex of one trailing
slash: removes a single trailing slash when present. -/
def stripTrailingSlash (s : String) : String :=
  let cs := s.toList
  if cs.getLast? == some '/' then String.mk cs.dropLast else s

/-! Character helpers for the platform models (URL parsing, encodeURI). -/

def isAsciiAlpha (c : Char) : Bool :=
  (65 ≤ c.toNat && c.toNat ≤ 90) || (97 ≤ c.toNat && c.toNat ≤ 122)

def isAsciiDigit (c : Char) : Bool :=
  48 ≤ c.toNat && c.toNat ≤ 57

def asciiLower (c : Char) : Char :=
  if 65 ≤ c.toNat && c.toNat ≤ 90 then Char.ofNat (c.toNat + 32) else c

/-! Model of the platform function encodeURI, as used by R2.publicUrl.
encodeURI leaves the URI reserved and unreserved characters below intact
and percent-encodes every other character as its UTF-8 bytes. -/

def encodeURIUnreserved (c : Char) : Bool :=
  isAsciiAlpha c || isAsciiDigit c ||
  c == ';' || c == ',' || c == '/' || c == '?' || c == ':' || c == '@' ||
  c == '&' || c == '=' || c == '+' || c == '$' || c == '-' || c == '_' ||
  c == '.' || c == '!' || c == '~' || c == '*' || c == Char.ofNat 39 ||
  c == '(' || c == ')' || c == '#'

/-- UTF-8 bytes of a Unicode scalar value, as Nat values below 256. -/
def utf8Bytes (n : Nat) : List Nat :=
  if n < 128 then [n]
  else if n < 2048 then [192 + n / 64, 128 + n % 64]
  else if n < 65536 then [224 + n / 4096, 128 + (n / 64) % 64, 128 + n % 64]
  else [240 + n / 262144, 128 + (n / 4096) % 64, 128 + (n / 64) % 64, 128 + n % 64]

def hexDigitUpper (n : Nat) : Char :=
  if n < 10 then Char.ofNat (48 + n) else Char.ofNat (55 + n)

def pctByte (b : Nat) : String :=
  "%" ++ String.singleton (hexDigitUpper (b / 16 % 16)) ++ String.singleton (hexDigitUpper (b % 16))

def encodeURIChar (c : Char) : String :=
  if encodeURIUnreserved c then String.singleton c
  else String.join ((utf8Bytes c.toNat).map pctByte)

def encodeURI (s : String) : String :=
  String.join (s.toList.map encodeURIChar)

/-! Model of the platform URL constructor, restricted to what
R2.publicUrl uses: whether parsing throws, and the resulting hostname.
This follows the WHATWG URL parser as implemented by the Node runtime:
strip surrounding C0-control-or-space and interior tab or newline; parse
a scheme; for the special schemes, skip any run of slashes, read the
authority up to a path, query or fragment delimiter, drop userinfo and a
numeric port, reject forbidden host characters, and lowercase the host;
a non-special scheme has a host only after a literal double slash. -/

def urlStrip (s : List Char) : List Char :=
  let dropLead := s.dropWhile (fun c => c.toNat ≤ 32)
  let trimmed := (dropLead.reverse.dropWhile (fun c => c.toNat ≤ 32)).reverse
  trimmed.filter (fun c => !(c.toNat == 9 || c.toNat == 10 || c.toNat == 13))

def isSchemeTail (c : Char) : Bool :=
  isAsciiAlpha c || isAsciiDigit c || c == '+' || c == '-' || c == '.'

def schemeGo (acc : List Char) : List Char → Option (List Char × List Char)
  | [] => none
  | c :: rest =>
    if c == ':' then some (acc.reverse, rest)
    else if isSchemeTail c then schemeGo (c :: acc) rest
    else none

def splitScheme : List Char → Option (List Char × List Char)
  | [] => none
  | c :: rest => if isAsciiAlpha c then schemeGo [c] rest else none

def specialScheme (s : List Char) : Bool :=
  let l := s.map asciiLower
  l == "http".toList || l == "https".toList || l == "ws".toList ||
  l == "wss".toList || l == "ftp".toList || l == "file".toList

def isAuthorityEnd (c : Char) : Bool :=
  c == '/' || c == '\\' || c == '?' || c == '#'

/-- The host-port part of an authority: the part after the last @. -/
def hostPortOf (auth : List Char) : List Char :=
  if auth.contains '@' then (auth.reverse.takeWhile (fun c => !(c == '@'))).reverse
  else auth

/-- Split a host-port: strip a numeric port, keep a bracketed IPv6 host
whole; none models a parse failure (bad port or unbalanced bracket). -/
def splitHostPort (hp : List Char) : Option (List Char) :=
  match hp with
  | '[' :: rest =>
    if rest.contains ']' then
      let inside := rest.takeWhile (fun c => !(c == ']'))
      let after := (rest.dropWhile (fun c => !(c == ']'))).drop 1
      match after with
      | [] => some ('[' :: inside ++ [']'])
      | ':' :: digits =>
        if digits.all isAsciiDigit then some ('[' :: inside ++ [']']) else none
      | _ => none
    else none
  | _ =>
    let host := hp.takeWhile (fun c => !(c == ':'))
    match hp.dropWhile (fun c => !(c == ':')) with
    | [] => some host
    | _ :: digits => if digits.all isAsciiDigit then some host else none

def forbiddenHostChar (c : Char) : Bool :=
  c.toNat == 0 || c.toNat == 9 || c.toNat == 10 || c.toNat == 13 ||
  c == ' ' || c == '#' || c == '/' || c == ':' || c == '<' || c == '>' ||
  c == '?' || c == '@' || c == '[' || c == '\\' || c == ']' || c == '^' ||
  c == '|' || c == '%' || c == '"'

/-- Hostname of a URL string, none when the URL constructor throws. -/
def jsURLHostname (s : String) : Option String :=
  match splitScheme (urlStrip s.toList) with
  | none => none
  | some (scheme, rest) =>
    if specialScheme scheme then
      let afterSlashes := rest.dropWhile (fun c => c == '/' || c == '\\')
      let auth := afterSlashes.takeWhile (fun c => !(isAuthorityEnd c))
      match splitHostPort (hostPortOf auth) with
      | none => none
      | some host =>
        match host with
        | '[' :: _ => some (String.mk host)
        | _ =>
          if host.isEmpty then
            if (scheme.map asciiLower) == "file".toList then some "" else none
          else if host.any forbiddenHostChar then none
          else some (String.mk (host.map asciiLower))
    else
      if rest.take 2 == ['/', '/'] then
        let auth := (rest.drop 2).takeWhile (fun c => !(isAuthorityEnd c))
        match splitHostPort (hostPortOf auth) with
        | none => none
        | some host =>
          if host.any forbiddenHostChar then none else some (String.mk host)
      else some ""

/-! The R2 store client, embedded from src/MELODY4U/backend/r2.js. -/

/-- The configuration bag passed to the R2 constructor. Fields are
Option String because the server builds it from environment variables
that may be undefined. -/
structure R2Cfg where
  accountId : Option String
  accessKeyId : Option String
  secretAccessKey : Option String
  bucket : Option String
  endpoint : Option String

/-- The state an R2 instance keeps for URL derivation. -/
structure R2 where
  bucket : Option String
  accountId : Option String
  endpoint : Option String

/-- The R2 constructor: copies bucket and accountId, and normalizes the
endpoint by removing one trailing slash via optional chaining. It is
total: no configuration value is validated here. -/
def R2.construct (cfg : R2Cfg) : R2 :=
  ⟨cfg.bucket, cfg.accountId, cfg.endpoint.map stripTrailingSlash⟩

/-- R2.publicUrl: parse the stored endpoint with the URL constructor
(none models the thrown TypeError on an unparseable endpoint); when the
hostname ends with .r2.cloudflarestorage.com compose the virtual-hosted
URL from bucket and accountId, otherwise append the encoded key to the
endpoint with one more trailing slash removed. The key is passed through
encodeURI in both branches. -/
def R2.publicUrl (r : R2) (key : String) : Option String :=
  match jsURLHostname (jsStr r.endpoint) with
  | none => none
  | some host =>
    if strEndsWith host ".r2.cloudflarestorage.com" then
      some ("https://" ++ jsStr r.bucket ++ "." ++ jsStr r.accountId ++
        ".r2.cloudflarestorage.com/" ++ encodeURI key)
    else
      some (stripTrailingSlash (jsStr r.endpoint) ++ "/" ++ encodeURI key)

/-- The grant described by a GetObjectCommand plus an expiry: scoped to
one bucket and one key, valid for ttl seconds. -/
structure Grant where
  bucket : Option String
  key : String
  ttl : Nat
deriving DecidableEq

/-- R2.signedUrl with an explicit expiresSeconds argument: builds a
GetObjectCommand for exactly the given key and requests a presigned URL
expiring in expiresSeconds. -/
def R2.signedUrl (r : R2) (key : String) (expiresSeconds : Nat) : Grant :=
  ⟨r.bucket, key, expiresSeconds⟩

/-- The default value of the expiresSeconds parameter of R2.signedUrl. -/
def signedUrlDefaultSeconds : Nat := 300

/-- R2.signedUrl called with the expiry argument omitted: the parameter
default applies. -/
def R2.signedUrlOmitted (r : R2) (key : String) : Grant :=
  r.signedUrl key signedUrlDefaultSeconds

/-! The Express server, embedded from src/MELODY4U/backend/server.js. -/

/-- JavaScript whitespace class, the character set matched by a
backslash-s regex escape. -/
def jsWs (c : Char) : Bool :=
  let n := c.toNat
  n == 9 || n == 10 || n == 11 || n == 12 || n == 13 || n == 32 ||
  n == 160 || n == 5760 || (8192 ≤ n && n ≤ 8202) || n == 8232 ||
  n == 8233 || n == 8239 || n == 8287 || n == 12288 || n == 65279

/-- Replace every maximal run of whitespace with one hyphen; the Bool
flag records whether the previous character was inside a run. -/
def collapseWsGo (inWs : Bool) : List Char → List Char
  | [] => []
  | c :: rest =>
    if jsWs c then
      if inWs then collapseWsGo true rest
      else '-' :: collapseWsGo true rest
    else c :: collapseWsGo false rest

/-- Model of String.prototype.replace with a global whitespace-run regex
and a hyphen replacement. -/
def collapseWs (s : String) : String :=
  String.mk (collapseWsGo false s.toList)

/-- Model of path.join of a directory without trailing slash and a file
name without leading slash. -/
def pathJoin (dir name : String) : String := dir ++ "/" ++ name

/-- The parsed JSON body of a render request; none fields model absent
keys, and the empty string models a present-but-empty key. -/
structure RenderBody where
  voiceKey : Option String
  musicKey : Option String
deriving DecidableEq

/-- Outcomes of the collaborators during one render request: whether
each signed-URL issuance throws, the URL it returns on success, whether
the ffmpeg run, the staged-file read, the store write and the unlink
succeed, the two uuidv4 draws (first for the temp file, second for the
output key) and the temporary directory. The handler never branches on
unlinkOk: the unlink sits in a try block with an empty catch. -/
structure RenderEnv where
  signOk : String → Bool
  signVal : String → String
  mixOk : Bool
  readOk : Bool
  putOk : Bool
  unlinkOk : Bool
  uuid1 : String
  uuid2 : String
  tmpdir : String

def missingKeysBody : JBody :=
  [("ok", JVal.bool false), ("error", JVal.str "Missing voiceKey or musicKey")]

def renderFailedBody : JBody :=
  [("ok", JVal.bool false), ("error", JVal.str "Render failed")]

/-- The complex filter string passed verbatim to the pipeline. -/
def renderFilterGraph : String :=
  "[0:a]volume=1.0[a0];[1:a]volume=0.8[a1];[a0][a1]amix=inputs=2:duration=shortest:dropout_transition=0[a]"

/-- The output options passed verbatim to the pipeline. -/
def renderOutputOptions : List String :=
  ["-map [a]", "-ac 2", "-ar 44100", "-b:a 192k"]

/-- Spec-side rendering of the fixed two-input filter graph: gain the
first (voice) input, gain the second (music) input, mix with the given
duration policy and dropout transition. Comparing renderFilterGraph with
mixGraph applied at gains 1.0 and 0.8, duration shortest and dropout 0
settles the refinement of the spec wording against the source string. -/
def mixGraph (gainVoice gainMusic duration : String) (dropout : Nat) : String :=
  "[0:a]volume=" ++ gainVoice ++ "[a0];[1:a]volume=" ++ gainMusic ++
  "[a1];[a0][a1]amix=inputs=2:duration=" ++ duration ++
  ":dropout_transition=" ++ toString dropout ++ "[a]"

/-- Spec-side rendering of the fixed encoding options: map the mixed
stream, set the channel count, the sample rate in Hz and the bitrate in
kbit per second. -/
def mixOpts (channels rateHz kbps : Nat) : List String :=
  ["-map [a]", "-ac " ++ toString channels, "-ar " ++ toString rateHz,
    "-b:a " ++ toString kbps ++ "k"]

/-- The POST /render handler. Mirrors the source line by line: read the
body with a default of an empty object, reject falsy keys with 400 and
no effects, sign the voice then the music key for 600 seconds, run the
pipeline into a fresh temp file, read the staged file, upload it as
audio/mpeg under a fresh output key, unlink the staged file inside a
try with an empty catch, derive the public URL and answer 200; any
thrown step lands in the catch, a 500 with a generic body. -/
def renderHandler (r : R2) (env : RenderEnv) (reqBody : Option RenderBody) :
    HttpResponse × List Eff :=
  let b := reqBody.getD ⟨none, none⟩
  if jsTruthy b.voiceKey && jsTruthy b.musicKey then
    let voiceKey := b.voiceKey.getD ""
    let musicKey := b.musicKey.getD ""
    let e1 := Eff.signUrl voiceKey 600
    if env.signOk voiceKey then
      let voiceUrl := env.signVal voiceKey
      let e2 := Eff.signUrl musicKey 600
      if env.signOk musicKey then
        let musicUrl := env.signVal musicKey
        let outFile := pathJoin env.tmpdir ("mix-" ++ env.uuid1 ++ ".mp3")
        let e3 := Eff.mix voiceUrl musicUrl renderFilterGraph renderOutputOptions outFile
        if env.mixOk then
          let outKey := "output/" ++ env.uuid2 ++ ".mp3"
          let e4 := Eff.readFile outFile
          if env.readOk then
            let e5 := Eff.putObject outKey (some "audio/mpeg")
            if env.putOk then
              let e6 := Eff.unlink outFile
              match R2.publicUrl r outKey with
              | some url =>
                (⟨200, [("ok", JVal.bool true), ("outKey", JVal.str outKey),
                  ("url", JVal.str url)]⟩, [e1, e2, e3, e4, e5, e6])
              | none => (⟨500, renderFailedBody⟩, [e1, e2, e3, e4, e5, e6])
            else (⟨500, renderFailedBody⟩, [e1, e2, e3, e4, e5])
          else (⟨500, renderFailedBody⟩, [e1, e2, e3, e4])
        else (⟨500, renderFailedBody⟩, [e1, e2, e3])
      else (⟨500, renderFailedBody⟩, [e1, e2])
    else (⟨500, renderFailedBody⟩, [e1])
  else (⟨400, missingKeysBody⟩, [])

/-- The multer file object of an upload request: the original file name
(possibly absent or empty) and the reported mime type. -/
structure UploadFile where
  originalname : Option String
  mimetype : Option String
deriving DecidableEq

/-- Outcomes of the collaborators during one upload request. -/
structure UploadEnv where
  uuid : String
  putOk : Bool

def missingFileBody : JBody :=
  [("ok", JVal.bool false), ("error", JVal.str "Missing file")]

def uploadFailedBody : JBody :=
  [("ok", JVal.bool false), ("error", JVal.str "Upload failed")]

/-- The POST /upload handler. Mirrors the source: a missing file is a
400 with no effects; otherwise the key is uploads/ then the uuid, a
hyphen and the original name (defaulted to upload.bin when falsy, then
whitespace runs collapsed to hyphens), the buffer is written with the
mime type (undefined when falsy), the public URL is derived and the
response is 200; a thrown step lands in the catch, a 500. -/
def uploadHandler (r : R2) (env : UploadEnv) (file : Option UploadFile) :
    HttpResponse × List Eff :=
  match file with
  | none => (⟨400, missingFileBody⟩, [])
  | some f =>
    let original := collapseWs (jsOrDefault f.originalname "upload.bin")
    let key := "uploads/" ++ env.uuid ++ "-" ++ original
    let ct := match f.mimetype with
      | none => none
      | some s => if s == "" then none else some s
    let e1 := Eff.putObject key ct
    if env.putOk then
      match R2.publicUrl r key with
      | some url =>
        (⟨200, [("ok", JVal.bool true), ("key", JVal.str key),
          ("url", JVal.str url)]⟩, [e1])
      | none => (⟨500, uploadFailedBody⟩, [e1])
    else (⟨500, uploadFailedBody⟩, [e1])

/-! Concrete fixtures used by witnesses and counterexamples. -/

/-- A well-formed configuration with the native R2 endpoint shape. -/
def sampleCfg : R2Cfg :=
  ⟨some "acc123", some "AK", some "SK", some "melody4u",
    some "https://acc123.r2.cloudflarestorage.com"⟩

def sampleR2 : R2 := R2.construct sampleCfg

/-- A configuration whose endpoint is not a parseable URL; the
constructor accepts it unchanged. -/
def badCfg : R2Cfg :=
  ⟨some "acc123", some "AK", some "SK", some "melody4u", some "not a url"⟩

/-- An environment in which every collaborator call succeeds. -/
def envAllOk : RenderEnv :=
  ⟨fun _ => true, fun k => "https://signed/" ++ k, true, true, true, true,
    "u1", "u2", "/tmp"⟩

/-- Same as envAllOk except the store write of the output throws. -/
def envPutFails : RenderEnv :=
  ⟨fun _ => true, fun k => "https://signed/" ++ k, true, true, false, true,
    "u1", "u2", "/tmp"⟩

/-- Same as envAllOk except the pipeline run fails. -/
def envMixFails : RenderEnv :=
  ⟨fun _ => true, fun k => "https://signed/" ++ k, false, true, true, true,
    "u1", "u2", "/tmp"⟩

/-- Same as envAllOk except signing the key v throws. -/
def envSignVoiceFails : RenderEnv :=
  ⟨fun k => !(k == "v"), fun k => "https://signed/" ++ k, true, true, true,
    true, "u1", "u2", "/tmp"⟩

def sampleUploadEnv : UploadEnv := ⟨"u3", true⟩

/-! Helper lemmas shared by the claim theorems. -/

/-- The source filter string equals the spec-side graph at voice gain
1.0, music gain 0.8, shortest duration and dropout transition 0. -/
theorem renderFilterGraph_eq : renderFilterGraph = mixGraph "1.0" "0.8" "shortest" 0 := by
  decide

/-- The source output options equal the spec-side options at 2 channels,
44100 Hz and 192 kbit per second. -/
theorem renderOutputOptions_eq : renderOutputOptions = mixOpts 2 44100 192 := by
  decide

/-- C1: evaluation of the render workflow at the failing input, a valid
request whose store upload of the staged bytes throws. The staged file
was created and read (the readFile effect is present), the upload was
attempted, the response is the 500 failure, and no unlink effect occurs
at all: the local staged temporary file is not deleted on this exit
path, contradicting the claim that cleanup runs on every exit path. In
the source the unlink sits after the awaited putObject inside the try
block, so a throwing upload jumps straight to the catch. -/
theorem render_upload_failure_skips_cleanup :
    (renderHandler sampleR2 envPutFails (some ⟨some "v", some "m"⟩)).1 =
      ⟨500, renderFailedBody⟩ ∧
    Eff.readFile "/tmp/mix-u1.mp3" ∈
      (renderHandler sampleR2 envPutFails (some ⟨some "v", some "m"⟩)).2 ∧
    Eff.putObject "output/u2.mp3" (some "audio/mpeg") ∈
      (renderHandler sampleR2 envPutFails (some ⟨some "v", some "m"⟩)).2 ∧
    (renderHandler sampleR2 envPutFails (some ⟨some "v", some "m"⟩)).2.filter isUnlinkEff = [] := by
  decide

/-- C2: evaluation of the render workflow at the failing input, a valid
request whose pipeline invocation fails. No putObject effect occurs, so
no output object is written to the store (this half of the claim holds),
but no unlink effect occurs either: the orchestrator makes no attempt to
remove a partially created staged file, contradicting the removal half
of the claim. -/
theorem render_pipeline_failure_no_put_no_cleanup :
    (renderHandler sampleR2 envMixFails (some ⟨some "v", some "m"⟩)).1 =
      ⟨500, renderFailedBody⟩ ∧
    (renderHandler sampleR2 envMixFails (some ⟨some "v", some "m"⟩)).2.filter isPutEff = [] ∧
    (renderHandler sampleR2 envMixFails (some ⟨some "v", some "m"⟩)).2.filter isUnlinkEff = [] := by
  decide

/-- C3 counterexample: on a fully successful render the response is 200
but its body has no field named outputKey; the key field is named
outKey. The claim as stated, that the JSON response carries an outputKey
field, is false at this input. -/
theorem render_success_field_named_outKey :
    (renderHandler sampleR2 envAllOk (some ⟨some "v", some "m"⟩)).1.status = 200 ∧
    lookupJ (renderHandler sampleR2 envAllOk (some ⟨some "v", some "m"⟩)).1.body "outputKey" = none ∧
    lookupJ (renderHandler sampleR2 envAllOk (some ⟨some "v", some "m"⟩)).1.body "outKey" =
      some (JVal.str "output/u2.mp3") := by
  decide

/-- C3 amended: for every successful render request the response is the
JSON object with fields ok true, outKey and url, where outKey is the
freshly generated key output/ uuid .mp3, url is the public URL derived
for that key, and the object was uploaded with content type audio/mpeg. -/
theorem render_success_response (r : R2) (env : RenderEnv) (reqBody : Option RenderBody)
    (url : String)
    (hv : jsTruthy (reqBody.getD ⟨none, none⟩).voiceKey = true)
    (hm : jsTruthy (reqBody.getD ⟨none, none⟩).musicKey = true)
    (h1 : env.signOk ((reqBody.getD ⟨none, none⟩).voiceKey.getD "") = true)
    (h2 : env.signOk ((reqBody.getD ⟨none, none⟩).musicKey.getD "") = true)
    (h3 : env.mixOk = true) (h4 : env.readOk = true) (h5 : env.putOk = true)
    (hp : r.publicUrl ("output/" ++ env.uuid2 ++ ".mp3") = some url) :
    (renderHandler r env reqBody).1 =
      ⟨200, [("ok", JVal.bool true),
        ("outKey", JVal.str ("output/" ++ env.uuid2 ++ ".mp3")),
        ("url", JVal.str url)]⟩ ∧
    Eff.putObject ("output/" ++ env.uuid2 ++ ".mp3") (some "audio/mpeg") ∈
      (renderHandler r env reqBody).2 := by
  simp [renderHandler, hv, hm, h1, h2, h3, h4, h5, hp]

/-- C3 witness: the amended success-response theorem applied at a
concrete all-success run. -/
theorem render_success_response_witness :
    (renderHandler sampleR2 envAllOk (some ⟨some "v", some "m"⟩)).1 =
      ⟨200, [("ok", JVal.bool true),
        ("outKey", JVal.str ("output/" ++ envAllOk.uuid2 ++ ".mp3")),
        ("url", JVal.str "https://melody4u.acc123.r2.cloudflarestorage.com/output/u2.mp3")]⟩ ∧
    Eff.putObject ("output/" ++ envAllOk.uuid2 ++ ".mp3") (some "audio/mpeg") ∈
      (renderHandler sampleR2 envAllOk (some ⟨some "v", some "m"⟩)).2 :=
  render_success_response sampleR2 envAllOk (some ⟨some "v", some "m"⟩)
    "https://melody4u.acc123.r2.cloudflarestorage.com/output/u2.mp3"
    rfl rfl rfl rfl rfl rfl rfl (by decide)

/-- C4: a render request whose voiceKey or musicKey is absent or empty,
which is exactly when the JavaScript truthiness conjunction fails, gets
the 400 response with the body ok false and the error text Missing
voiceKey or musicKey, and the handler performs no effects at all: no
signed-URL issuance, no store write, no pipeline invocation. -/
theorem render_missing_keys (r : R2) (env : RenderEnv) (reqBody : Option RenderBody)
    (h : (jsTruthy (reqBody.getD ⟨none, none⟩).voiceKey &&
      jsTruthy (reqBody.getD ⟨none, none⟩).musicKey) = false) :
    renderHandler r env reqBody = (⟨400, missingKeysBody⟩, []) := by
  simp [renderHandler, h]

/-- C4 witness: the empty body, both keys absent, gets the 400 response
with zero effects. -/
theorem render_missing_keys_witness :
    (jsTruthy ((some (⟨none, none⟩ : RenderBody)).getD ⟨none, none⟩).voiceKey &&
      jsTruthy ((some (⟨none, none⟩ : RenderBody)).getD ⟨none, none⟩).musicKey) = false ∧
    renderHandler sampleR2 envAllOk (some ⟨none, none⟩) = (⟨400, missingKeysBody⟩, []) :=
  ⟨rfl, render_missing_keys sampleR2 envAllOk (some ⟨none, none⟩) rfl⟩

/-- C5: every pipeline invocation a render request performs carries
exactly the fixed parameters: the filter graph with the first (voice)
input at gain 1.0, the second (music) input at gain 0.8, mixed with
duration equal to the shorter input and dropout transition 0, the
output options encoding 2 channels, 44100 Hz, 192 kbit per second, and
the two input URLs are the signed URLs of the voice and music keys in
that order. -/
theorem render_mix_fixed_params (r : R2) (env : RenderEnv) (reqBody : Option RenderBody)
    (vu mu g p : String) (opts : List String)
    (h : Eff.mix vu mu g opts p ∈ (renderHandler r env reqBody).2) :
    g = mixGraph "1.0" "0.8" "shortest" 0 ∧ opts = mixOpts 2 44100 192 ∧
    vu = env.signVal ((reqBody.getD ⟨none, none⟩).voiceKey.getD "") ∧
    mu = env.signVal ((reqBody.getD ⟨none, none⟩).musicKey.getD "") := by
  obtain ⟨so, sv, mo, ro, po, uo, u1, u2, td⟩ := env
  cases hc : (jsTruthy (reqBody.getD ⟨none, none⟩).voiceKey &&
      jsTruthy (reqBody.getD ⟨none, none⟩).musicKey) with
  | false => simp [renderHandler, hc] at h
  | true =>
    cases h1 : so ((reqBody.getD ⟨none, none⟩).voiceKey.getD "") <;>
    cases h2 : so ((reqBody.getD ⟨none, none⟩).musicKey.getD "") <;>
    cases mo <;> cases ro <;> cases po <;>
      simp [renderHandler, hc, h1, h2] at h <;>
      (try cases hp : R2.publicUrl r ("output/" ++ u2 ++ ".mp3") <;> simp [hp] at h) <;>
      simp_all [renderFilterGraph_eq, renderOutputOptions_eq]

/-- C5 witness: the fixed-parameters theorem applied at the concrete mix
effect of an all-success run. -/
theorem render_mix_fixed_params_witness :
    Eff.mix "https://signed/v" "https://signed/m" renderFilterGraph renderOutputOptions
      "/tmp/mix-u1.mp3" ∈ (renderHandler sampleR2 envAllOk (some ⟨some "v", some "m"⟩)).2 ∧
    (renderFilterGraph = mixGraph "1.0" "0.8" "shortest" 0 ∧
     renderOutputOptions = mixOpts 2 44100 192 ∧
     "https://signed/v" = envAllOk.signVal
       (((some (⟨some "v", some "m"⟩ : RenderBody)).getD ⟨none, none⟩).voiceKey.getD "") ∧
     "https://signed/m" = envAllOk.signVal
       (((some (⟨some "v", some "m"⟩ : RenderBody)).getD ⟨none, none⟩).musicKey.getD "")) :=
  ⟨by decide, render_mix_fixed_params sampleR2 envAllOk (some ⟨some "v", some "m"⟩)
    "https://signed/v" "https://signed/m" renderFilterGraph "/tmp/mix-u1.mp3"
    renderOutputOptions (by decide)⟩

/-- C6 counterexample: a validated request in which signing the voice
key throws. The music key is then never requested, so the claim that
every validated request issues exactly one signed URL per input key is
false at this input. -/
theorem render_sign_counterexample :
    jsTruthy (some "v") = true ∧ jsTruthy (some "m") = true ∧
    Eff.signUrl "m" 600 ∉
      (renderHandler sampleR2 envSignVoiceFails (some ⟨some "v", some "m"⟩)).2 := by
  decide

/-- C6 amended: for every validated render request the signed-URL
effects are exactly one issuance for the voice key, followed by one
issuance for the music key when the first issuance succeeded; every
issuance carries TTL exactly 600 seconds and is scoped to its single
key. -/
theorem render_signed_urls (r : R2) (env : RenderEnv) (reqBody : Option RenderBody)
    (hv : jsTruthy (reqBody.getD ⟨none, none⟩).voiceKey = true)
    (hm : jsTruthy (reqBody.getD ⟨none, none⟩).musicKey = true) :
    (renderHandler r env reqBody).2.filter isSignEff =
      Eff.signUrl ((reqBody.getD ⟨none, none⟩).voiceKey.getD "") 600 ::
        (if env.signOk ((reqBody.getD ⟨none, none⟩).voiceKey.getD "") then
          [Eff.signUrl ((reqBody.getD ⟨none, none⟩).musicKey.getD "") 600] else []) := by
  obtain ⟨so, sv, mo, ro, po, uo, u1, u2, td⟩ := env
  cases h1 : so ((reqBody.getD ⟨none, none⟩).voiceKey.getD "") <;>
  cases h2 : so ((reqBody.getD ⟨none, none⟩).musicKey.getD "") <;>
  cases mo <;> cases ro <;> cases po <;>
    simp [renderHandler, hv, hm, h1, h2, isSignEff] <;>
    (cases hp : R2.publicUrl r ("output/" ++ u2 ++ ".mp3") <;> simp [hp, isSignEff])

/-- C6 witness: the amended signed-URL theorem applied at a concrete
all-success run, where both issuances occur with TTL 600. -/
theorem render_signed_urls_witness :
    jsTruthy ((some (⟨some "v", some "m"⟩ : RenderBody)).getD ⟨none, none⟩).voiceKey = true ∧
    jsTruthy ((some (⟨some "v", some "m"⟩ : RenderBody)).getD ⟨none, none⟩).musicKey = true ∧
    (renderHandler sampleR2 envAllOk (some ⟨some "v", some "m"⟩)).2.filter isSignEff =
      Eff.signUrl (((some (⟨some "v", some "m"⟩ : RenderBody)).getD ⟨none, none⟩).voiceKey.getD "") 600 ::
        (if envAllOk.signOk (((some (⟨some "v", some "m"⟩ : RenderBody)).getD ⟨none, none⟩).voiceKey.getD "") then
          [Eff.signUrl (((some (⟨some "v", some "m"⟩ : RenderBody)).getD ⟨none, none⟩).musicKey.getD "") 600]
        else []) :=
  ⟨rfl, rfl, render_signed_urls sampleR2 envAllOk (some ⟨some "v", some "m"⟩) rfl rfl⟩

/-- C7 counterexample: at the key a b under a native-endpoint
configuration, publicUrl returns the URL with the key passed through
encodeURI, the space percent-encoded as %20, and not the URL with the
raw key the claim states. -/
theorem publicUrl_counterexample_encoding :
    R2.publicUrl sampleR2 "a b" =
      some "https://melody4u.acc123.r2.cloudflarestorage.com/a%20b" ∧
    R2.publicUrl sampleR2 "a b" ≠
      some "https://melody4u.acc123.r2.cloudflarestorage.com/a b" := by
  decide

/-- C7 amended: when the endpoint hostname parses, publicUrl returns
the virtual-hosted URL composed from bucket and accountId if the
hostname ends with .r2.cloudflarestorage.com, and otherwise the stored
endpoint with one more trailing slash removed; in both branches the
appended key is passed through encodeURI. -/
theorem publicUrl_branches (r : R2) (key hn : String)
    (hh : jsURLHostname (jsStr r.endpoint) = some hn) :
    (strEndsWith hn ".r2.cloudflarestorage.com" = true →
      r.publicUrl key = some ("https://" ++ jsStr r.bucket ++ "." ++ jsStr r.accountId ++
        ".r2.cloudflarestorage.com/" ++ encodeURI key)) ∧
    (strEndsWith hn ".r2.cloudflarestorage.com" = false →
      r.publicUrl key = some (stripTrailingSlash (jsStr r.endpoint) ++ "/" ++ encodeURI key)) := by
  unfold R2.publicUrl
  rw [hh]
  constructor <;> intro hb <;> simp [hb]

/-- C7 witness: the branch theorem applied at the sample configuration
whose hostname is the native R2 domain. -/
theorem publicUrl_branches_witness :
    jsURLHostname (jsStr sampleR2.endpoint) = some "acc123.r2.cloudflarestorage.com" ∧
    ((strEndsWith "acc123.r2.cloudflarestorage.com" ".r2.cloudflarestorage.com" = true →
      sampleR2.publicUrl "k" = some ("https://" ++ jsStr sampleR2.bucket ++ "." ++
        jsStr sampleR2.accountId ++ ".r2.cloudflarestorage.com/" ++ encodeURI "k")) ∧
     (strEndsWith "acc123.r2.cloudflarestorage.com" ".r2.cloudflarestorage.com" = false →
      sampleR2.publicUrl "k" = some (stripTrailingSlash (jsStr sampleR2.endpoint) ++ "/" ++
        encodeURI "k"))) :=
  ⟨by decide, publicUrl_branches sampleR2 "k" "acc123.r2.cloudflarestorage.com" (by decide)⟩

/-- C8 counterexample: the configuration with the endpoint text not a
url is accepted by the total constructor, yet calling publicUrl on it
fails at call time, the none modelling the TypeError the URL
constructor throws. The claim that publicUrl never fails at call time
for constructor-accepted configurations is false at this input. -/
theorem publicUrl_call_time_throw :
    R2.publicUrl (R2.construct badCfg) "k" = none := by
  decide

/-- C8 amended: publicUrl is a pure function of the configuration and
the key in this functional embedding, and whether it fails at call time
depends only on the configuration, never on the key: it fails exactly
when the stored endpoint does not parse as a URL, because the
constructor validates nothing. -/
theorem publicUrl_failure_only_config (cfg : R2Cfg) (key : String) :
    ((R2.construct cfg).publicUrl key = none ↔
      jsURLHostname (jsStr (R2.construct cfg).endpoint) = none) := by
  unfold R2.publicUrl
  cases hh : jsURLHostname (jsStr (R2.construct cfg).endpoint) with
  | none => simp
  | some hn => cases hb : strEndsWith hn ".r2.cloudflarestorage.com" <;> simp [hb]

/-- C9: calling signedUrl with the expiry argument omitted applies the
parameter default of 300 seconds, which is 5 minutes and lies within
the 5 to 10 minute default range the spec states, and the grant is
scoped to exactly the given key. -/
theorem signedUrl_default_ttl (r : R2) (key : String) :
    (r.signedUrlOmitted key).ttl = 300 ∧
    5 * 60 ≤ (r.signedUrlOmitted key).ttl ∧ (r.signedUrlOmitted key).ttl ≤ 10 * 60 ∧
    (r.signedUrlOmitted key).key = key := by
  refine ⟨rfl, ?_, ?_, rfl⟩
  · show (300 : Nat) ≤ 300
    decide
  · show (300 : Nat) ≤ 600
    decide

/-- C10 counterexample: an upload whose file is present with the empty
string as its original name. The code falls back to upload.bin because
the empty string is falsy, producing the key uploads/u3-upload.bin,
whereas the claim, which reserves the fallback for an absent name,
yields uploads/u3- at this input; the two differ. -/
theorem upload_empty_name_counterexample :
    (uploadHandler sampleR2 sampleUploadEnv (some ⟨some "", some "audio/wav"⟩)).2 =
      [Eff.putObject "uploads/u3-upload.bin" (some "audio/wav")] ∧
    "uploads/" ++ sampleUploadEnv.uuid ++ "-" ++ collapseWs "" = "uploads/u3-" ∧
    ("uploads/u3-upload.bin" : String) ≠ "uploads/u3-" := by
  decide

/-- C10 amended: for every upload request with a file present, the
single store write uses the key uploads/ uuid - name, where name is the
original filename with every whitespace run collapsed to one hyphen,
falling back to upload.bin when the original filename is absent or
empty (falsy); with no file present the response is the 400 with body
ok false and error Missing file and no store write occurs. -/
theorem upload_key_shape (r : R2) (env : UploadEnv) (f : UploadFile) :
    (∃ ct, (uploadHandler r env (some f)).2 =
      [Eff.putObject ("uploads/" ++ env.uuid ++ "-" ++
        collapseWs (jsOrDefault f.originalname "upload.bin")) ct]) ∧
    uploadHandler r env none = (⟨400, missingFileBody⟩, []) := by
  constructor
  · refine ⟨(match f.mimetype with
      | none => none
      | some s => if s == "" then none else some s), ?_⟩
    obtain ⟨u, po⟩ := env
    cases po <;>
      simp [uploadHandler] <;>
      (cases hp : R2.publicUrl r ("uploads/" ++ u ++ "-" ++
        collapseWs (jsOrDefault f.originalname "upload.bin")) <;> simp [hp])
  · rfl

end Melody4u
